import Mathlib

/-!
A shallow embedding of the EmailAgent backend (files `security.py`,
`agents.py`, `main.py`) and proofs about its specified behaviour.

Modelling conventions:
* Python exceptions are modelled with `Except`: a method that can raise
  returns `Except ε α`; re-raising propagates the same error value.
* Side effects of the telemetry layer (tracing spans, span attributes,
  span status, log lines) are modelled as an explicit list of events
  returned next to the result.
* Python attribute access on objects that may lack the attribute is
  modelled by `Option` fields: `none` means the attribute is missing and
  access raises `AttributeError`.
* External libraries (the `cryptography` Fernet primitive, the `json`
  module, the Gmail API service, the CrewAI agent runtime, the vector
  store) are not part of the repository; they are modelled as abstract
  capabilities, or as idealized definitions faithful to their documented
  contracts where a claim depends on them.
-/

namespace EmailAgent

/-! ## Data model -/

/-- An inbound email as constructed by `main.py` for the orchestrator:
a dictionary with keys `to`, `subject`, `content`. -/
structure EmailMsg where
  «to» : String
  subject : String
  content : String
deriving DecidableEq, Repr

/-- A JSON-representable primitive value, the value type of a credentials
dictionary (`Dict[str, Any]` as used by `secure_store_credentials`). -/
inductive JValue where
  | jstr (s : String)
  | jnum (n : Int)
  | jbool (b : Bool)
  | jnull
deriving DecidableEq, Repr

/-- A string-keyed dictionary of JSON-representable values. -/
def CredDict : Type := List (String × JValue)

instance : DecidableEq CredDict := by
  unfold CredDict
  infer_instance

/-! ## Fernet (external `cryptography` library), modelled

Modelled from the spec: the Fernet primitive is external to the
repository. It is modelled as an ideal authenticated symmetric scheme:
decryption succeeds exactly on tokens produced under the same key and
fails (`InvalidToken`) on tokens produced under any other key and on
corrupted ciphertext. Key generation is random 256-bit material; freshness
is modelled by a `Nat` seed, distinct seeds giving distinct keys. The
payload type is abstract (`α`), standing for Python `bytes`; the UTF-8
`str.encode`/`bytes.decode` bijection at the call sites is modelled as the
identity on the abstract payload. -/

/-- A Fernet key, identified by the randomness used to generate it. -/
structure FernetKey where
  material : Nat
deriving DecidableEq, Repr

/-- A Fernet ciphertext: either an authentic token produced under some
key, or bytes that are not an authentic token (corrupted ciphertext). -/
inductive FernetToken (α : Type) where
  | token (key : FernetKey) (payload : α)
  | corrupted (noise : Nat)
deriving DecidableEq, Repr

/-- Error raised by Fernet decryption (`cryptography.fernet.InvalidToken`). -/
inductive CryptoError where
  | invalidToken
deriving DecidableEq, Repr

/-- `Fernet.generate_key()`, with the randomness made explicit. -/
def Fernet.generate_key (fresh : Nat) : FernetKey :=
  ⟨fresh⟩

/-- `Fernet(key).encrypt(data)`. -/
def Fernet.encrypt {α : Type} (k : FernetKey) (data : α) : FernetToken α :=
  .token k data

/-- `Fernet(key).decrypt(tok)`: succeeds exactly on authentic tokens
produced under the same key. -/
def Fernet.decrypt {α : Type} (k : FernetKey) : FernetToken α → Except CryptoError α
  | .token kp payload => if kp = k then .ok payload else .error .invalidToken
  | .corrupted _ => .error .invalidToken

/-! ## The `json` module (external), modelled

Modelled from the spec: the Python `json` module is external to the
repository. `dumps`/`loads` are modelled as mutually inverse, the
serialized text being represented by the dictionary it denotes. -/

/-- The JSON serialization of a credentials dictionary, represented by
the dictionary it denotes. -/
structure JsonText where
  val : CredDict
deriving DecidableEq

/-- `json.dumps(credentials)`. -/
def json_dumps (credentials : CredDict) : JsonText :=
  ⟨credentials⟩

/-- `json.loads(text)` on the serialization of a dictionary. -/
def json_loads (text : JsonText) : CredDict :=
  text.val

/-- Rendering of a `JValue` as display text (used only in a debug log
line, where the exact text carries no specified meaning). -/
def JValue.render : JValue → String
  | .jstr s => "\"" ++ s ++ "\""
  | .jnum n => toString n
  | .jbool b => if b then "true" else "false"
  | .jnull => "null"

/-- Display text of a dictionary for the telemetry debug log line. -/
def renderDict (d : CredDict) : String :=
  "\x7b" ++ String.intercalate ", "
    (d.map (fun kv => "\"" ++ kv.1 ++ "\": " ++ kv.2.render)) ++ "\x7d"

/-! ## `SecureEmailHandler` (`security.py`, lines 9-46) -/

/-- `SecureEmailHandler`: holds the key generated in `__init__` via
`Fernet.generate_key()`; `cipher_suite` is `Fernet(self.encryption_key)`,
modelled by the key itself. -/
structure SecureEmailHandler where
  encryption_key : FernetKey
deriving DecidableEq, Repr

/-- `SecureEmailHandler.__init__`, with the key-generation randomness
made explicit. -/
def SecureEmailHandler.init (fresh : Nat) : SecureEmailHandler :=
  ⟨Fernet.generate_key fresh⟩

/-- `self.cipher_suite = Fernet(self.encryption_key)`. -/
def SecureEmailHandler.cipher_suite (h : SecureEmailHandler) : FernetKey :=
  h.encryption_key

/-- `encrypt_sensitive_data`: `self.cipher_suite.encrypt(data.encode())`. -/
def SecureEmailHandler.encrypt_sensitive_data {α : Type}
    (h : SecureEmailHandler) (data : α) : FernetToken α :=
  Fernet.encrypt h.cipher_suite data

/-- `decrypt_sensitive_data`:
`self.cipher_suite.decrypt(encrypted_data).decode()`. -/
def SecureEmailHandler.decrypt_sensitive_data {α : Type}
    (h : SecureEmailHandler) (encrypted_data : FernetToken α) :
    Except CryptoError α :=
  Fernet.decrypt h.cipher_suite encrypted_data

/-- `secure_store_credentials`:
`self.encrypt_sensitive_data(json.dumps(credentials))`. -/
def SecureEmailHandler.secure_store_credentials
    (h : SecureEmailHandler) (credentials : CredDict) : FernetToken JsonText :=
  h.encrypt_sensitive_data (json_dumps credentials)

/-! ## Telemetry events

Side effects of the telemetry layer, recorded as an explicit trace.
Span-status events carry the name of the span whose status is set. -/

/-- One observable telemetry event. -/
inductive Ev where
  | spanStart (name : String)
  | spanAttr (key value : String)
  | spanStatusOK (span : String)
  | spanStatusError (span msg : String)
  | logError (message error : String)
  | logInfo (msg : String)
  | logDebug (msg : String)
deriving DecidableEq, Repr

/-- Number of times a span with the given name was opened (one span per
invocation of the corresponding instrumented method). -/
def countSpanStart (t : List Ev) (name : String) : Nat :=
  t.countP fun e =>
    match e with
    | .spanStart n => n == name
    | _ => false

/-- Number of `log_error` log lines in a trace. -/
def countLogError (t : List Ev) : Nat :=
  t.countP fun e =>
    match e with
    | .logError _ _ => true
    | _ => false

/-- Number of times the status of the named span was set to ERROR. -/
def countStatusError (t : List Ev) (span : String) : Nat :=
  t.countP fun e =>
    match e with
    | .spanStatusError n _ => n == span
    | _ => false

/-- Number of times the status of the named span was set to OK. -/
def countStatusOK (t : List Ev) (span : String) : Nat :=
  t.countP fun e =>
    match e with
    | .spanStatusOK n => n == span
    | _ => false

/-! ## `EmailAgentTelemetry` (`security.py`, lines 152-188)

`log_error` touches only span bookkeeping, string formatting and the
logger, all total, so it cannot raise. `log_email_interaction` is not
total: its debug line evaluates `json.dumps(details)` eagerly inside an
f-string (line 174), and `details` is `Dict[str, Any]`, so a value the
`json` module cannot serialize makes `json.dumps` raise `TypeError`,
which propagates out of the method after the info line and before the
debug line. `datetime.now().isoformat()` is an external clock read,
passed in explicitly. -/

/-- A Python value stored in a details dictionary (`Dict[str, Any]`):
either a JSON-representable value or an object the `json` module cannot
serialize (for example a bare `object()` or a set). -/
inductive PyValue where
  | json (v : JValue)
  | pyObject (objId : Nat)
deriving DecidableEq, Repr

/-- A details dictionary: string keys, arbitrary Python values. -/
def DetailsDict : Type := List (String × PyValue)

/-- Whether `json.dumps` can serialize this value. -/
def PyValue.serializable : PyValue → Bool
  | .json _ => true
  | .pyObject _ => false

/-- Whether every value of a details dictionary is JSON-serializable. -/
def jsonSerializable (d : DetailsDict) : Bool :=
  d.all fun kv => kv.2.serializable

/-- Display text of a Python value for the debug log line. -/
def PyValue.render : PyValue → String
  | .json v => v.render
  | .pyObject n => "<object " ++ toString n ++ ">"

/-- Display text of a details dictionary for the debug log line. -/
def renderPyDict (d : DetailsDict) : String :=
  "\x7b" ++ String.intercalate ", "
    (d.map (fun kv => "\"" ++ kv.1 ++ "\": " ++ kv.2.render)) ++ "\x7d"

/-- The `TypeError` raised by `json.dumps` on a value it cannot
serialize. -/
inductive TelemetryError where
  | typeError
deriving DecidableEq, Repr

/-- `json.dumps(details)` on a details dictionary. Modelled from the
spec: the `json` module is external; `dumps` succeeds, producing the
serialization text, exactly when every value of the dictionary is
JSON-representable, and raises `TypeError` otherwise. -/
def json_dumps_details (d : DetailsDict) : Except TelemetryError String :=
  if jsonSerializable d then .ok (renderPyDict d) else .error .typeError

/-- `EmailAgentTelemetry.log_email_interaction(interaction_type, details)`:
span start, two attributes and the info line always happen; the debug
line evaluates `json.dumps(details)` eagerly, so a non-serializable
details value raises `TypeError` there and the exception propagates. -/
def EmailAgentTelemetry.log_email_interaction (interaction_type : String)
    (details : DetailsDict) (now_iso : String) :
    Except TelemetryError Unit × List Ev :=
  let ev0 : List Ev :=
    [.spanStart interaction_type,
     .spanAttr "interaction.type" interaction_type,
     .spanAttr "interaction.timestamp" now_iso,
     .logInfo ("Email Interaction: " ++ interaction_type)]
  match json_dumps_details details with
  | .error e => (.error e, ev0)
  | .ok txt => (.ok (), ev0 ++ [.logDebug ("Details: " ++ txt)])

/-- `EmailAgentTelemetry.log_error(message, error)`. -/
def EmailAgentTelemetry.log_error (message error : String) :
    Except Empty Unit × List Ev :=
  (.ok (),
   [.spanStart "error",
    .spanAttr "error.message" message,
    .spanAttr "error.details" error,
    .spanStatusError "error" error,
    .logError message error])

/-! ## `EmailWorkflowOrchestrator` (`security.py`, lines 48-150) -/

/-- An exception value flowing through the orchestrator. -/
inductive EmailError where
  | attributeError (attr : String)
  | externalFailure (msg : String)
deriving DecidableEq, Repr

/-- Python `str(e)` for an orchestrator exception. -/
def EmailError.message : EmailError → String
  | .attributeError a => "object has no attribute " ++ a
  | .externalFailure m => m

/-- The external `priority_sorter` agent: `analyze(email)` returns a
priority string or raises. -/
structure PrioritySorter where
  analyze : EmailMsg → Except EmailError String

/-- The external `response_drafter` agent with its three generation
capabilities, each of which returns a response or raises. -/
structure ResponseDrafter (γ ρ : Type) where
  generate_immediate_response : EmailMsg → γ → Except EmailError ρ
  schedule_followup : EmailMsg → γ → Except EmailError ρ
  generate_response : EmailMsg → γ → Except EmailError ρ

/-- The object bound to `self.agents`. Python attribute access is
dynamic: each attribute the orchestrator reads is modelled as an
`Option`, `none` meaning the attribute is missing, so that reading it
raises `AttributeError` (as happens when a plain dict is passed). -/
structure AgentsObj (γ ρ : Type) where
  priority_sorter : Option PrioritySorter
  response_drafter : Option (ResponseDrafter γ ρ)

/-- The external vector store: `retrieve_context(content)` returns a
context value or raises. -/
structure VectorStore (γ : Type) where
  retrieve_context : String → Except EmailError γ

/-- `EmailWorkflowOrchestrator.__init__(agents, vector_store)`:
`vector_store` is `Option` because `main.py` passes `None`. The
`self.telemetry` field carries no state that the model needs; its event
output is the trace returned by each method. -/
structure EmailWorkflowOrchestrator (γ ρ : Type) where
  agents : AgentsObj γ ρ
  vector_store : Option (VectorStore γ)

/-- The success dictionary returned by `process_incoming_email`. -/
structure WorkflowResult (ρ : Type) where
  status : String
  priority : String
  response : ρ
deriving DecidableEq, Repr

variable {γ ρ : Type}

/-- `analyze_priority` (lines 101-111): opens the span, then evaluates
`self.agents.priority_sorter.analyze(email)` — an `AttributeError` if
the `priority_sorter` attribute is missing. -/
def EmailWorkflowOrchestrator.analyze_priority
    (o : EmailWorkflowOrchestrator γ ρ) (email : EmailMsg) :
    Except EmailError String × List Ev :=
  (match o.agents.priority_sorter with
   | none => .error (.attributeError "priority_sorter")
   | some ps => ps.analyze email,
   [.spanStart "analyze_priority"])

/-- `generate_immediate_response` (lines 113-124). -/
def EmailWorkflowOrchestrator.generate_immediate_response
    (o : EmailWorkflowOrchestrator γ ρ) (email : EmailMsg) (context : γ) :
    Except EmailError ρ × List Ev :=
  (match o.agents.response_drafter with
   | none => .error (.attributeError "response_drafter")
   | some rd => rd.generate_immediate_response email context,
   [.spanStart "generate_immediate_response"])

/-- `schedule_followup` (lines 126-137). -/
def EmailWorkflowOrchestrator.schedule_followup
    (o : EmailWorkflowOrchestrator γ ρ) (email : EmailMsg) (context : γ) :
    Except EmailError ρ × List Ev :=
  (match o.agents.response_drafter with
   | none => .error (.attributeError "response_drafter")
   | some rd => rd.schedule_followup email context,
   [.spanStart "schedule_followup"])

/-- `handle_normal_priority` (lines 139-150): delegates to the drafter
method `generate_response`. -/
def EmailWorkflowOrchestrator.handle_normal_priority
    (o : EmailWorkflowOrchestrator γ ρ) (email : EmailMsg) (context : γ) :
    Except EmailError ρ × List Ev :=
  (match o.agents.response_drafter with
   | none => .error (.attributeError "response_drafter")
   | some rd => rd.generate_response email context,
   [.spanStart "handle_normal_priority"])

/-- The inline step `await self.vector_store.retrieve_context(email["content"])`
(line 76), including the `AttributeError` raised when `vector_store` is
`None`. The code opens no span for this step. -/
def EmailWorkflowOrchestrator.retrieve_context_step
    (o : EmailWorkflowOrchestrator γ ρ) (content : String) :
    Except EmailError γ :=
  match o.vector_store with
  | none => .error (.attributeError "retrieve_context")
  | some vs => vs.retrieve_context content

/-- `process_incoming_email` (lines 60-99): classify, retrieve context,
dispatch on the priority string, and on any exception set the span status
to ERROR, call `log_error` once, and re-raise. The `response.type` span
attribute is set only after the chosen branch returns. -/
def EmailWorkflowOrchestrator.process_incoming_email
    (o : EmailWorkflowOrchestrator γ ρ) (email : EmailMsg) :
    Except EmailError (WorkflowResult ρ) × List Ev :=
  let ev0 : List Ev := [.spanStart "process_incoming_email"]
  match o.analyze_priority email with
  | (.error e, ev1) =>
      (.error e,
       ev0 ++ ev1 ++ [.spanStatusError "process_incoming_email" e.message]
           ++ (EmailAgentTelemetry.log_error "Email processing failed" e.message).2)
  | (.ok priority, ev1) =>
      let ev2 := ev0 ++ ev1 ++ [Ev.spanAttr "email.priority" priority]
      match o.retrieve_context_step email.content with
      | .error e =>
          (.error e,
           ev2 ++ [.spanStatusError "process_incoming_email" e.message]
               ++ (EmailAgentTelemetry.log_error "Email processing failed" e.message).2)
      | .ok context =>
          let branch : Except EmailError ρ × List Ev :=
            if priority = "urgent" then
              match o.generate_immediate_response email context with
              | (.ok r, ev) => (.ok r, ev ++ [Ev.spanAttr "response.type" "immediate"])
              | (.error e, ev) => (.error e, ev)
            else if priority = "followup" then
              match o.schedule_followup email context with
              | (.ok r, ev) => (.ok r, ev ++ [Ev.spanAttr "response.type" "followup"])
              | (.error e, ev) => (.error e, ev)
            else
              match o.handle_normal_priority email context with
              | (.ok r, ev) => (.ok r, ev ++ [Ev.spanAttr "response.type" "normal"])
              | (.error e, ev) => (.error e, ev)
          match branch with
          | (.ok response, ev3) =>
              (.ok ⟨"success", priority, response⟩,
               ev2 ++ ev3 ++ [.spanStatusOK "process_incoming_email"])
          | (.error e, ev3) =>
              (.error e,
               ev2 ++ ev3 ++ [.spanStatusError "process_incoming_email" e.message]
                   ++ (EmailAgentTelemetry.log_error "Email processing failed" e.message).2)

/-- An orchestrator whose collaborators are all present (the intended
configuration described by the spec). -/
def mkOrch (ps : PrioritySorter) (rd : ResponseDrafter γ ρ)
    (vs : VectorStore γ) : EmailWorkflowOrchestrator γ ρ :=
  ⟨⟨some ps, some rd⟩, some vs⟩

/-- The response path the spec assigns to each priority value: the
drafter capability that the corresponding branch invokes. -/
def pathCall (rd : ResponseDrafter γ ρ) (priority : String) :
    EmailMsg → γ → Except EmailError ρ :=
  if priority = "urgent" then rd.generate_immediate_response
  else if priority = "followup" then rd.schedule_followup
  else rd.generate_response

/-- The span name of the orchestrator method implementing the response
path the spec assigns to each priority value. -/
def pathSpanName (priority : String) : String :=
  if priority = "urgent" then "generate_immediate_response"
  else if priority = "followup" then "schedule_followup"
  else "handle_normal_priority"

/-! ## `GmailTools` (`agents.py`, lines 17-97)

The Gmail API service object built by `authenticate()` is external; it is
modelled as an abstract send capability that either returns the sent
message resource or raises (an HTTP error from the provider). -/

/-- A MIME text message as built by `send_email`:
`MIMEText(body)` with the `to` and `subject` headers set. -/
structure MimeMessage where
  body : String
  «to» : String
  subject : String
deriving DecidableEq, Repr

/-- `MIMEText(body)` followed by the two header assignments. -/
def mimeText (body toAddr subject : String) : MimeMessage :=
  ⟨body, toAddr, subject⟩

/-- `base64.urlsafe_b64encode(message.as_bytes()).decode('utf-8')`.
Modelled from the spec: MIME serialization and base64 are external
stdlib; modelled as an opaque textual rendering (its exact form is
irrelevant to every claim). -/
def rawOf (m : MimeMessage) : String :=
  "to=" ++ m.to ++ ";subject=" ++ m.subject ++ ";body=" ++ m.body

/-- An error raised by the underlying Gmail API call. -/
inductive AdapterError where
  | httpError (msg : String)
deriving DecidableEq, Repr

/-- The message resource returned by
`service.users().messages().send(...).execute()`. -/
structure SentMessage where
  id : String
deriving DecidableEq, Repr

/-- The external Gmail service:
`send_raw` is `users().messages().send(userId='me', body={'raw': raw}).execute()`. -/
structure GmailService where
  send_raw : String → Except AdapterError SentMessage

/-- `GmailTools.send_email(to, subject, body)` (lines 84-97): build the
MIME message, base64-encode it, call the provider, and return the
dictionary `{'message_id': sent_message['id']}`. A provider failure
propagates. -/
def GmailTools.send_email (svc : GmailService)
    (toAddr subject body : String) :
    Except AdapterError (List (String × String)) :=
  let message := mimeText body toAddr subject
  let raw := rawOf message
  match svc.send_raw raw with
  | .error e => .error e
  | .ok sent_message => .ok [("message_id", sent_message.id)]

/-! ## `create_jared_crew` (`agents.py`, lines 117-155) and `main.py` -/

/-- A CrewAI agent as configured in `create_jared_crew`: a role label, a
goal, a backstory and tool bindings; it carries no decision logic of its
own in this repository. -/
structure Agent where
  role : String
  goal : String
deriving DecidableEq, Repr

/-- The plain dictionary returned by `create_jared_crew`, with keys
`reader`, `analyzer`, `composer`. -/
structure JaredCrew where
  reader : Agent
  analyzer : Agent
  composer : Agent
deriving DecidableEq, Repr

/-- `create_jared_crew()`: builds the three agents and returns the
dictionary. -/
def create_jared_crew : JaredCrew :=
  { reader := ⟨"Email Reader", "Efficiently read and understand email content"⟩,
    analyzer := ⟨"Email Analyzer", "Analyze emails and provide insights"⟩,
    composer := ⟨"Email Composer", "Compose and send effective emails"⟩ }

/-- The `create_jared_crew` dictionary in the position of the
orchestrator's `agents` argument. A Python dict exposes its entries as
items, not attributes: it has no `priority_sorter` and no
`response_drafter` attribute, whatever its keys, so both attribute reads
are `none`. -/
def JaredCrew.asAgentsObj (_ : JaredCrew) : AgentsObj γ ρ :=
  ⟨none, none⟩

/-- `workflow = EmailWorkflowOrchestrator(jared_crew, None)`
(`main.py`, lines 16-21). -/
def workflow (γ ρ : Type) : EmailWorkflowOrchestrator γ ρ :=
  ⟨create_jared_crew.asAgentsObj, none⟩

/-- The trace suffix emitted by the `except` clause of
`process_incoming_email`: the outer span status set to ERROR followed by
the events of the single `log_error` call. -/
def failureTail (e : EmailError) : List Ev :=
  .spanStatusError "process_incoming_email" e.message ::
    (EmailAgentTelemetry.log_error "Email processing failed" e.message).2

/-! ## Theorems -/

/-- Evaluation of `process_incoming_email` when classification yields
`"urgent"` and every collaborator succeeds. -/
theorem process_eval_urgent {γ ρ : Type}
    (ps : PrioritySorter) (rd : ResponseDrafter γ ρ) (vs : VectorStore γ)
    (email : EmailMsg) (ctx : γ) (r : ρ)
    (hp : ps.analyze email = .ok "urgent")
    (hctx : vs.retrieve_context email.content = .ok ctx)
    (hr : rd.generate_immediate_response email ctx = .ok r) :
    (mkOrch ps rd vs).process_incoming_email email =
      (.ok ⟨"success", "urgent", r⟩,
       [.spanStart "process_incoming_email", .spanStart "analyze_priority",
        .spanAttr "email.priority" "urgent",
        .spanStart "generate_immediate_response",
        .spanAttr "response.type" "immediate",
        .spanStatusOK "process_incoming_email"]) := by
  simp [EmailWorkflowOrchestrator.process_incoming_email, mkOrch,
        EmailWorkflowOrchestrator.analyze_priority,
        EmailWorkflowOrchestrator.retrieve_context_step,
        EmailWorkflowOrchestrator.generate_immediate_response,
        hp, hctx, hr]

/-- Evaluation of `process_incoming_email` when classification yields
`"followup"` and every collaborator succeeds. -/
theorem process_eval_followup {γ ρ : Type}
    (ps : PrioritySorter) (rd : ResponseDrafter γ ρ) (vs : VectorStore γ)
    (email : EmailMsg) (ctx : γ) (r : ρ)
    (hp : ps.analyze email = .ok "followup")
    (hctx : vs.retrieve_context email.content = .ok ctx)
    (hr : rd.schedule_followup email ctx = .ok r) :
    (mkOrch ps rd vs).process_incoming_email email =
      (.ok ⟨"success", "followup", r⟩,
       [.spanStart "process_incoming_email", .spanStart "analyze_priority",
        .spanAttr "email.priority" "followup",
        .spanStart "schedule_followup",
        .spanAttr "response.type" "followup",
        .spanStatusOK "process_incoming_email"]) := by
  simp [EmailWorkflowOrchestrator.process_incoming_email, mkOrch,
        EmailWorkflowOrchestrator.analyze_priority,
        EmailWorkflowOrchestrator.retrieve_context_step,
        EmailWorkflowOrchestrator.schedule_followup,
        hp, hctx, hr]

/-- Evaluation of `process_incoming_email` when classification yields
any value other than `"urgent"` and `"followup"` and every collaborator
succeeds: the default branch runs `handle_normal_priority`. -/
theorem process_eval_default {γ ρ : Type}
    (ps : PrioritySorter) (rd : ResponseDrafter γ ρ) (vs : VectorStore γ)
    (email : EmailMsg) (p : String) (ctx : γ) (r : ρ)
    (hp : ps.analyze email = .ok p)
    (hu : p ≠ "urgent") (hf : p ≠ "followup")
    (hctx : vs.retrieve_context email.content = .ok ctx)
    (hr : rd.generate_response email ctx = .ok r) :
    (mkOrch ps rd vs).process_incoming_email email =
      (.ok ⟨"success", p, r⟩,
       [.spanStart "process_incoming_email", .spanStart "analyze_priority",
        .spanAttr "email.priority" p,
        .spanStart "handle_normal_priority",
        .spanAttr "response.type" "normal",
        .spanStatusOK "process_incoming_email"]) := by
  simp [EmailWorkflowOrchestrator.process_incoming_email, mkOrch,
        EmailWorkflowOrchestrator.analyze_priority,
        EmailWorkflowOrchestrator.retrieve_context_step,
        EmailWorkflowOrchestrator.handle_normal_priority,
        hp, hctx, hr, hu, hf]

/-- C1: when classification yields one of the three enumerated
priorities and every collaborator succeeds, `process_incoming_email`
invokes exactly the response path corresponding to that priority (once,
and the other two never) and returns the success result tagged with that
priority and that path's response. -/
theorem process_dispatches_on_priority {γ ρ : Type}
    (ps : PrioritySorter) (rd : ResponseDrafter γ ρ) (vs : VectorStore γ)
    (email : EmailMsg) (p : String) (ctx : γ) (r : ρ)
    (hmem : p = "urgent" ∨ p = "followup" ∨ p = "normal")
    (hp : ps.analyze email = .ok p)
    (hctx : vs.retrieve_context email.content = .ok ctx)
    (hr : pathCall rd p email ctx = .ok r) :
    ((mkOrch ps rd vs).process_incoming_email email).1
        = .ok ⟨"success", p, r⟩
    ∧ countSpanStart ((mkOrch ps rd vs).process_incoming_email email).2
        (pathSpanName p) = 1
    ∧ ∀ q, (q = "urgent" ∨ q = "followup" ∨ q = "normal") → q ≠ p →
        countSpanStart ((mkOrch ps rd vs).process_incoming_email email).2
          (pathSpanName q) = 0 := by
  rcases hmem with hq | hq | hq <;> subst hq <;> simp [pathCall] at hr
  · rw [process_eval_urgent ps rd vs email ctx r hp hctx hr]
    refine ⟨rfl, by simp [countSpanStart, pathSpanName], ?_⟩
    rintro q (hq | hq | hq) hne <;> subst hq <;>
      simp_all [countSpanStart, pathSpanName]
  · rw [process_eval_followup ps rd vs email ctx r hp hctx hr]
    refine ⟨rfl, by simp [countSpanStart, pathSpanName], ?_⟩
    rintro q (hq | hq | hq) hne <;> subst hq <;>
      simp_all [countSpanStart, pathSpanName]
  · rw [process_eval_default ps rd vs email "normal" ctx r hp
          (by simp) (by simp) hctx hr]
    refine ⟨rfl, by simp [countSpanStart, pathSpanName], ?_⟩
    rintro q (hq | hq | hq) hne <;> subst hq <;>
      simp_all [countSpanStart, pathSpanName]

/-- C5: for every string `s`, decrypting the result of encrypting `s`
with the same `SecureEmailHandler` instance returns `s`. -/
theorem decrypt_encrypt_roundtrip (h : SecureEmailHandler) (s : String) :
    h.decrypt_sensitive_data (h.encrypt_sensitive_data s) = .ok s := by
  simp [SecureEmailHandler.decrypt_sensitive_data,
        SecureEmailHandler.encrypt_sensitive_data,
        SecureEmailHandler.cipher_suite, Fernet.encrypt, Fernet.decrypt]

/-- C6: ciphertext produced by handler `a` fails to decrypt under a
distinct handler `b` that generated its own (hence different) key, and
`decrypt` also fails on corrupted ciphertext. -/
theorem decrypt_cross_instance_fails (a b : SecureEmailHandler)
    (hk : a.encryption_key ≠ b.encryption_key) (s : String) :
    b.decrypt_sensitive_data (a.encrypt_sensitive_data s)
        = .error .invalidToken
    ∧ ∀ n : Nat,
        b.decrypt_sensitive_data (FernetToken.corrupted (α := String) n)
          = .error .invalidToken := by
  constructor
  · simp [SecureEmailHandler.decrypt_sensitive_data,
          SecureEmailHandler.encrypt_sensitive_data,
          SecureEmailHandler.cipher_suite, Fernet.encrypt, Fernet.decrypt, hk]
  · intro n
    simp [SecureEmailHandler.decrypt_sensitive_data, Fernet.decrypt]

/-- Witness for C6 at two concretely constructed handlers with distinct
key material and a concrete secret. -/
theorem decrypt_cross_instance_fails_witness :
    (SecureEmailHandler.init 1).decrypt_sensitive_data
        ((SecureEmailHandler.init 0).encrypt_sensitive_data "secret")
        = .error .invalidToken
    ∧ ∀ n : Nat,
        (SecureEmailHandler.init 1).decrypt_sensitive_data
            (FernetToken.corrupted (α := String) n)
          = .error .invalidToken :=
  decrypt_cross_instance_fails (SecureEmailHandler.init 0)
    (SecureEmailHandler.init 1) (by decide) "secret"

/-- C7: `secure_store_credentials` serializes then encrypts, and
decrypting with the same handler followed by deserialization reproduces
the original dictionary exactly. -/
theorem secure_store_credentials_roundtrip (h : SecureEmailHandler)
    (d : CredDict) :
    (h.decrypt_sensitive_data (h.secure_store_credentials d)).map json_loads
      = .ok d := by
  simp [SecureEmailHandler.secure_store_credentials,
        SecureEmailHandler.decrypt_sensitive_data,
        SecureEmailHandler.encrypt_sensitive_data,
        SecureEmailHandler.cipher_suite, Fernet.encrypt, Fernet.decrypt,
        json_dumps, json_loads, Except.map]

/-- C8 counterexample: at a details dictionary holding a value the
`json` module cannot serialize, `log_email_interaction` raises the
`TypeError` from the eagerly evaluated `json.dumps(details)` instead of
returning normally, so the telemetry operations do not never raise. -/
theorem telemetry_raises_counterexample :
    (EmailAgentTelemetry.log_email_interaction "read_emails"
        [("query", PyValue.pyObject 0)] "2026-10-12T00:00:00").1
      = .error .typeError
    ∧ (EmailAgentTelemetry.log_email_interaction "read_emails"
        [("query", PyValue.pyObject 0)] "2026-10-12T00:00:00").1
      ≠ .ok () :=
  ⟨rfl, fun h => Except.noConfusion h⟩

/-- C8 amended: `log_error` returns normally for every message and
error string, and `log_email_interaction` returns normally exactly when
every value of the details dictionary is JSON-serializable — on a
dictionary holding a non-serializable value it raises the `TypeError`
from `json.dumps`. -/
theorem telemetry_raise_characterization (t : String) (d : DetailsDict)
    (now m e : String) :
    ((EmailAgentTelemetry.log_email_interaction t d now).1 = .ok ()
      ↔ jsonSerializable d = true)
    ∧ (EmailAgentTelemetry.log_error m e).1 = .ok () := by
  refine ⟨?_, rfl⟩
  unfold EmailAgentTelemetry.log_email_interaction json_dumps_details
  by_cases h : jsonSerializable d = true
  · simp [h]
  · simp [h]

/-- Witness for C1 at a concrete configuration whose sorter classifies
the email as urgent and whose collaborators all succeed. -/
theorem process_dispatches_on_priority_witness :
    ((mkOrch ⟨fun _ => .ok "urgent"⟩
        (⟨fun _ _ => .ok 1, fun _ _ => .ok 2, fun _ _ => .ok 3⟩ :
          ResponseDrafter Nat Nat)
        ⟨fun _ => .ok 0⟩).process_incoming_email
        ⟨"a@b.com", "outage", "urgent: server down"⟩).1
        = .ok ⟨"success", "urgent", 1⟩
    ∧ countSpanStart
        ((mkOrch ⟨fun _ => .ok "urgent"⟩
            (⟨fun _ _ => .ok 1, fun _ _ => .ok 2, fun _ _ => .ok 3⟩ :
              ResponseDrafter Nat Nat)
            ⟨fun _ => .ok 0⟩).process_incoming_email
            ⟨"a@b.com", "outage", "urgent: server down"⟩).2
        (pathSpanName "urgent") = 1
    ∧ ∀ q, (q = "urgent" ∨ q = "followup" ∨ q = "normal") → q ≠ "urgent" →
        countSpanStart
          ((mkOrch ⟨fun _ => .ok "urgent"⟩
              (⟨fun _ _ => .ok 1, fun _ _ => .ok 2, fun _ _ => .ok 3⟩ :
                ResponseDrafter Nat Nat)
              ⟨fun _ => .ok 0⟩).process_incoming_email
              ⟨"a@b.com", "outage", "urgent: server down"⟩).2
          (pathSpanName q) = 0 :=
  process_dispatches_on_priority ⟨fun _ => .ok "urgent"⟩
    ⟨fun _ _ => .ok 1, fun _ _ => .ok 2, fun _ _ => .ok 3⟩
    ⟨fun _ => .ok 0⟩ ⟨"a@b.com", "outage", "urgent: server down"⟩
    "urgent" 0 1 (Or.inl rfl) rfl rfl (by simp [pathCall])

/-- Evaluation of `process_incoming_email` when the classification step
raises. -/
theorem process_eval_analyze_error {γ ρ : Type}
    (ps : PrioritySorter) (rd : ResponseDrafter γ ρ) (vs : VectorStore γ)
    (email : EmailMsg) (e : EmailError)
    (hp : ps.analyze email = .error e) :
    (mkOrch ps rd vs).process_incoming_email email =
      (.error e,
       [.spanStart "process_incoming_email", .spanStart "analyze_priority"]
         ++ failureTail e) := by
  simp [EmailWorkflowOrchestrator.process_incoming_email, mkOrch,
        EmailWorkflowOrchestrator.analyze_priority, failureTail, hp]

/-- Evaluation of `process_incoming_email` when classification succeeds
and the context-retrieval step raises. -/
theorem process_eval_retrieve_error {γ ρ : Type}
    (ps : PrioritySorter) (rd : ResponseDrafter γ ρ) (vs : VectorStore γ)
    (email : EmailMsg) (p : String) (e : EmailError)
    (hp : ps.analyze email = .ok p)
    (hc : vs.retrieve_context email.content = .error e) :
    (mkOrch ps rd vs).process_incoming_email email =
      (.error e,
       [.spanStart "process_incoming_email", .spanStart "analyze_priority",
        .spanAttr "email.priority" p] ++ failureTail e) := by
  simp [EmailWorkflowOrchestrator.process_incoming_email, mkOrch,
        EmailWorkflowOrchestrator.analyze_priority,
        EmailWorkflowOrchestrator.retrieve_context_step, failureTail, hp, hc]

/-- Evaluation of `process_incoming_email` when classification and
retrieval succeed and the dispatched response path raises. -/
theorem process_eval_generate_error {γ ρ : Type}
    (ps : PrioritySorter) (rd : ResponseDrafter γ ρ) (vs : VectorStore γ)
    (email : EmailMsg) (p : String) (ctx : γ) (e : EmailError)
    (hp : ps.analyze email = .ok p)
    (hc : vs.retrieve_context email.content = .ok ctx)
    (hr : pathCall rd p email ctx = .error e) :
    (mkOrch ps rd vs).process_incoming_email email =
      (.error e,
       [.spanStart "process_incoming_email", .spanStart "analyze_priority",
        .spanAttr "email.priority" p, .spanStart (pathSpanName p)]
         ++ failureTail e) := by
  by_cases hu : p = "urgent"
  · subst hu
    simp [pathCall] at hr
    simp [EmailWorkflowOrchestrator.process_incoming_email, mkOrch,
          EmailWorkflowOrchestrator.analyze_priority,
          EmailWorkflowOrchestrator.retrieve_context_step,
          EmailWorkflowOrchestrator.generate_immediate_response,
          pathSpanName, failureTail, hp, hc, hr]
  · by_cases hf : p = "followup"
    · subst hf
      simp [pathCall] at hr
      simp [EmailWorkflowOrchestrator.process_incoming_email, mkOrch,
            EmailWorkflowOrchestrator.analyze_priority,
            EmailWorkflowOrchestrator.retrieve_context_step,
            EmailWorkflowOrchestrator.schedule_followup,
            pathSpanName, failureTail, hp, hc, hr]
    · simp [pathCall, hu, hf] at hr
      simp [EmailWorkflowOrchestrator.process_incoming_email, mkOrch,
            EmailWorkflowOrchestrator.analyze_priority,
            EmailWorkflowOrchestrator.retrieve_context_step,
            EmailWorkflowOrchestrator.handle_normal_priority,
            pathSpanName, failureTail, hp, hc, hr, hu, hf]

/-- C2: if any of the classification, context-retrieval or
response-generation steps raises, `process_incoming_email` re-raises the
same exception, calls `log_error` exactly once, marks its span as
errored (exactly one ERROR status on the outer span, and no OK status),
and returns no result. -/
theorem process_failure_atomic {γ ρ : Type}
    (ps : PrioritySorter) (rd : ResponseDrafter γ ρ) (vs : VectorStore γ)
    (email : EmailMsg) (e : EmailError)
    (h : ps.analyze email = .error e
       ∨ (∃ p, ps.analyze email = .ok p
            ∧ vs.retrieve_context email.content = .error e)
       ∨ (∃ p ctx, ps.analyze email = .ok p
            ∧ vs.retrieve_context email.content = .ok ctx
            ∧ pathCall rd p email ctx = .error e)) :
    ((mkOrch ps rd vs).process_incoming_email email).1 = .error e
    ∧ countLogError ((mkOrch ps rd vs).process_incoming_email email).2 = 1
    ∧ countStatusError ((mkOrch ps rd vs).process_incoming_email email).2
        "process_incoming_email" = 1
    ∧ countStatusOK ((mkOrch ps rd vs).process_incoming_email email).2
        "process_incoming_email" = 0 := by
  rcases h with hp | ⟨p, hp, hc⟩ | ⟨p, ctx, hp, hc, hr⟩
  · rw [process_eval_analyze_error ps rd vs email e hp]
    refine ⟨rfl, ?_, ?_, ?_⟩ <;>
      simp [countLogError, countStatusError, countStatusOK, failureTail,
            EmailAgentTelemetry.log_error]
  · rw [process_eval_retrieve_error ps rd vs email p e hp hc]
    refine ⟨rfl, ?_, ?_, ?_⟩ <;>
      simp [countLogError, countStatusError, countStatusOK, failureTail,
            EmailAgentTelemetry.log_error]
  · rw [process_eval_generate_error ps rd vs email p ctx e hp hc hr]
    refine ⟨rfl, ?_, ?_, ?_⟩ <;>
      simp [countLogError, countStatusError, countStatusOK, failureTail,
            EmailAgentTelemetry.log_error]

/-- Witness for C2 at a concrete configuration whose context-retrieval
step raises while classification succeeds. -/
theorem process_failure_atomic_witness :
    ((mkOrch ⟨fun _ => .ok "normal"⟩
        (⟨fun _ _ => .ok 1, fun _ _ => .ok 2, fun _ _ => .ok 3⟩ :
          ResponseDrafter Nat Nat)
        ⟨fun _ => .error (.externalFailure "vector store down")⟩).process_incoming_email
        ⟨"a@b.com", "hello", "some content"⟩).1
        = .error (.externalFailure "vector store down")
    ∧ countLogError
        ((mkOrch ⟨fun _ => .ok "normal"⟩
            (⟨fun _ _ => .ok 1, fun _ _ => .ok 2, fun _ _ => .ok 3⟩ :
              ResponseDrafter Nat Nat)
            ⟨fun _ => .error (.externalFailure "vector store down")⟩).process_incoming_email
            ⟨"a@b.com", "hello", "some content"⟩).2 = 1
    ∧ countStatusError
        ((mkOrch ⟨fun _ => .ok "normal"⟩
            (⟨fun _ _ => .ok 1, fun _ _ => .ok 2, fun _ _ => .ok 3⟩ :
              ResponseDrafter Nat Nat)
            ⟨fun _ => .error (.externalFailure "vector store down")⟩).process_incoming_email
            ⟨"a@b.com", "hello", "some content"⟩).2
        "process_incoming_email" = 1
    ∧ countStatusOK
        ((mkOrch ⟨fun _ => .ok "normal"⟩
            (⟨fun _ _ => .ok 1, fun _ _ => .ok 2, fun _ _ => .ok 3⟩ :
              ResponseDrafter Nat Nat)
            ⟨fun _ => .error (.externalFailure "vector store down")⟩).process_incoming_email
            ⟨"a@b.com", "hello", "some content"⟩).2
        "process_incoming_email" = 0 :=
  process_failure_atomic ⟨fun _ => .ok "normal"⟩
    ⟨fun _ _ => .ok 1, fun _ _ => .ok 2, fun _ _ => .ok 3⟩
    ⟨fun _ => .error (.externalFailure "vector store down")⟩
    ⟨"a@b.com", "hello", "some content"⟩
    (.externalFailure "vector store down")
    (Or.inr (Or.inl ⟨"normal", rfl, rfl⟩))

/-- C3 counterexample: the code places no constraint on the string the
external sorter returns — a sorter answering `"spam"` makes
`analyze_priority` yield a value outside the three-element enumeration. -/
theorem analyze_priority_enum_counterexample :
    ((mkOrch ⟨fun _ => .ok "spam"⟩
        (⟨fun _ _ => .ok 1, fun _ _ => .ok 2, fun _ _ => .ok 3⟩ :
          ResponseDrafter Nat Nat)
        ⟨fun _ => .ok 0⟩).analyze_priority
        ⟨"a@b.com", "hello", "some content"⟩).1 = .ok "spam"
    ∧ ¬("spam" = "urgent" ∨ "spam" = "followup" ∨ "spam" = "normal") :=
  ⟨rfl, by decide⟩

/-- C3 amended: `analyze_priority` returns exactly whatever the external
`priority_sorter.analyze` capability returns, with no validation or
constraint to the enumeration `{urgent, followup, normal}`. -/
theorem analyze_priority_delegates {γ ρ : Type}
    (ps : PrioritySorter) (rd : ResponseDrafter γ ρ) (vs : VectorStore γ)
    (email : EmailMsg) :
    ((mkOrch ps rd vs).analyze_priority email).1 = ps.analyze email :=
  rfl

/-- C4: every priority value other than `"urgent"` and `"followup"` —
including values outside the three-element enumeration — is dispatched
to the normal-priority handling path, which runs once while the other
two paths never run, and the call succeeds rather than failing. -/
theorem non_enum_priority_defaults_normal {γ ρ : Type}
    (ps : PrioritySorter) (rd : ResponseDrafter γ ρ) (vs : VectorStore γ)
    (email : EmailMsg) (p : String) (ctx : γ) (r : ρ)
    (hp : ps.analyze email = .ok p)
    (hu : p ≠ "urgent") (hf : p ≠ "followup")
    (hctx : vs.retrieve_context email.content = .ok ctx)
    (hr : rd.generate_response email ctx = .ok r) :
    ((mkOrch ps rd vs).process_incoming_email email).1
        = .ok ⟨"success", p, r⟩
    ∧ countSpanStart ((mkOrch ps rd vs).process_incoming_email email).2
        "handle_normal_priority" = 1
    ∧ countSpanStart ((mkOrch ps rd vs).process_incoming_email email).2
        "generate_immediate_response" = 0
    ∧ countSpanStart ((mkOrch ps rd vs).process_incoming_email email).2
        "schedule_followup" = 0 := by
  rw [process_eval_default ps rd vs email p ctx r hp hu hf hctx hr]
  refine ⟨rfl, ?_, ?_, ?_⟩ <;> simp [countSpanStart]

/-- Witness for C4 at a sorter returning the out-of-enumeration value
`"banana"`. -/
theorem non_enum_priority_defaults_normal_witness :
    ((mkOrch ⟨fun _ => .ok "banana"⟩
        (⟨fun _ _ => .ok 1, fun _ _ => .ok 2, fun _ _ => .ok 3⟩ :
          ResponseDrafter Nat Nat)
        ⟨fun _ => .ok 0⟩).process_incoming_email
        ⟨"a@b.com", "hello", "some content"⟩).1
        = .ok ⟨"success", "banana", 3⟩
    ∧ countSpanStart
        ((mkOrch ⟨fun _ => .ok "banana"⟩
            (⟨fun _ _ => .ok 1, fun _ _ => .ok 2, fun _ _ => .ok 3⟩ :
              ResponseDrafter Nat Nat)
            ⟨fun _ => .ok 0⟩).process_incoming_email
            ⟨"a@b.com", "hello", "some content"⟩).2
        "handle_normal_priority" = 1
    ∧ countSpanStart
        ((mkOrch ⟨fun _ => .ok "banana"⟩
            (⟨fun _ _ => .ok 1, fun _ _ => .ok 2, fun _ _ => .ok 3⟩ :
              ResponseDrafter Nat Nat)
            ⟨fun _ => .ok 0⟩).process_incoming_email
            ⟨"a@b.com", "hello", "some content"⟩).2
        "generate_immediate_response" = 0
    ∧ countSpanStart
        ((mkOrch ⟨fun _ => .ok "banana"⟩
            (⟨fun _ _ => .ok 1, fun _ _ => .ok 2, fun _ _ => .ok 3⟩ :
              ResponseDrafter Nat Nat)
            ⟨fun _ => .ok 0⟩).process_incoming_email
            ⟨"a@b.com", "hello", "some content"⟩).2
        "schedule_followup" = 0 :=
  non_enum_priority_defaults_normal ⟨fun _ => .ok "banana"⟩
    ⟨fun _ _ => .ok 1, fun _ _ => .ok 2, fun _ _ => .ok 3⟩
    ⟨fun _ => .ok 0⟩ ⟨"a@b.com", "hello", "some content"⟩
    "banana" 0 3 rfl (by decide) (by decide) rfl rfl

/-- C9: on a successful provider call whose returned message resource
carries a (non-empty) id, `send_email` returns the dictionary with
exactly the key `message_id` bound to that id; on a failed provider call
it raises the provider error instead of returning a result. -/
theorem send_email_contract (svc : GmailService)
    (toAddr subject body : String) (sent : SentMessage)
    (hok : svc.send_raw (rawOf (mimeText body toAddr subject)) = .ok sent)
    (hid : sent.id ≠ "") :
    (GmailTools.send_email svc toAddr subject body
        = .ok [("message_id", sent.id)]
      ∧ sent.id ≠ "")
    ∧ ∀ (svc2 : GmailService) (e : AdapterError),
        svc2.send_raw (rawOf (mimeText body toAddr subject)) = .error e →
        GmailTools.send_email svc2 toAddr subject body = .error e := by
  refine ⟨⟨?_, hid⟩, ?_⟩
  · simp [GmailTools.send_email, hok]
  · intro svc2 e he
    simp [GmailTools.send_email, he]

/-- Witness for C9 at a provider that acknowledges the send with a
concrete non-empty message id. -/
theorem send_email_contract_witness :
    (GmailTools.send_email ⟨fun _ => .ok ⟨"msg-123"⟩⟩ "a@b.com" "hi" "body"
        = .ok [("message_id", "msg-123")]
      ∧ ("msg-123" : String) ≠ "")
    ∧ ∀ (svc2 : GmailService) (e : AdapterError),
        svc2.send_raw (rawOf (mimeText "body" "a@b.com" "hi")) = .error e →
        GmailTools.send_email svc2 "a@b.com" "hi" "body" = .error e :=
  send_email_contract ⟨fun _ => .ok ⟨"msg-123"⟩⟩ "a@b.com" "hi" "body"
    ⟨"msg-123"⟩ rfl (by decide)

/-- C10: with the orchestrator exactly as constructed in `main.py` —
`agents` bound to the `create_jared_crew` dictionary and `vector_store`
bound to `None` — every call to `process_incoming_email` raises the
`AttributeError` for `priority_sorter`; no call reaches any dispatch
path and none returns a success result. -/
theorem main_workflow_always_raises (γ ρ : Type) (email : EmailMsg) :
    ((workflow γ ρ).process_incoming_email email).1
        = .error (.attributeError "priority_sorter")
    ∧ countSpanStart ((workflow γ ρ).process_incoming_email email).2
        "generate_immediate_response" = 0
    ∧ countSpanStart ((workflow γ ρ).process_incoming_email email).2
        "schedule_followup" = 0
    ∧ countSpanStart ((workflow γ ρ).process_incoming_email email).2
        "handle_normal_priority" = 0
    ∧ countStatusOK ((workflow γ ρ).process_incoming_email email).2
        "process_incoming_email" = 0 := by
  refine ⟨rfl, ?_, ?_, ?_, ?_⟩ <;>
    simp [workflow, JaredCrew.asAgentsObj, create_jared_crew,
          EmailWorkflowOrchestrator.process_incoming_email,
          EmailWorkflowOrchestrator.analyze_priority,
          EmailAgentTelemetry.log_error, EmailError.message,
          countSpanStart, countStatusOK]

end EmailAgent
